import Mathlib

/-!
Formal model of the company-research service: the publish/subscribe
notification hub (`backend/services/websocket_manager.py`), the in-memory
job registry and pipeline driver (`application.py`), the grounding node
(`backend/nodes/grounding.py`), the briefing node with its concurrency
limiter (`backend/nodes/briefing.py`) and the editor node
(`backend/nodes/editor.py`).  Python strings are modelled as Lean
`String` (lists of characters), Python `dict`s keyed by strings as
association lists, Python sets of connection handles as duplicate-free
lists of `Nat`, and fallible external calls (LLM, search crawl) as
explicit `Except` parameters.  Concurrency of the briefing stage is
modelled by a small-step transition relation over per-task phases and
the semaphore counter.
-/

set_option maxHeartbeats 1000000

namespace TCR

/-! ## Definitions -/

/-! ### Python string helpers -/

/-- Python `str.strip()` on the underlying character list: drop whitespace
from both ends. -/
def stripAux (l : List Char) : List Char :=
  ((l.dropWhile Char.isWhitespace).reverse.dropWhile Char.isWhitespace).reverse

/-- Python `str.strip()`. -/
def pyStrip (s : String) : String := String.mk (stripAux s.data)

/-- Python `sep.join(xs)`. -/
def joinSep (sep : String) : List String → String
  | [] => ""
  | [s] => s
  | s :: r :: rest => s ++ sep ++ joinSep sep (r :: rest)

/-! ### Association lists (Python dicts keyed by strings) -/

def alookup {β : Type} : List (String × β) → String → Option β
  | [], _ => none
  | p :: rest, k => if p.1 = k then some p.2 else alookup rest k

def aset {β : Type} (l : List (String × β)) (k : String) (v : β) :
    List (String × β) :=
  l.map fun p => if p.1 = k then (k, v) else p

def aremove {β : Type} (l : List (String × β)) (k : String) :
    List (String × β) :=
  l.filter fun p => decide (p.1 ≠ k)

/-! ### WebSocketManager (`backend/services/websocket_manager.py`)

`active_connections : Dict[str, Set[WebSocket]]` is an association list
from job id to the list of connected subscriber handles (opaque `Nat`s,
kept duplicate-free by `connect`).  `broadcast_to_job` is parameterized
by `send_fails`, telling which subscribers' `send_text` raises; it
returns the updated manager and the list of subscribers that were
delivered the message. -/

abbrev Manager := List (String × List Nat)

/-- `WebSocketManager.connect`: create the entry if absent, then add the
subscriber to the job's set. -/
def connect (m : Manager) (websocket : Nat) (job_id : String) : Manager :=
  match alookup m job_id with
  | none => m ++ [(job_id, [websocket])]
  | some conns =>
      aset m job_id (if websocket ∈ conns then conns else conns ++ [websocket])

/-- `WebSocketManager.disconnect`: discard the subscriber from the job's
set; delete the job's entry when the set becomes empty; no-op when the
job has no entry. -/
def disconnect (m : Manager) (websocket : Nat) (job_id : String) : Manager :=
  match alookup m job_id with
  | none => m
  | some conns =>
      let conns' := conns.filter fun c => decide (c ≠ websocket)
      if conns' = [] then aremove m job_id else aset m job_id conns'

/-- `WebSocketManager.broadcast_to_job`: no connections registered is a
silent no-op; otherwise send to every connection, collecting the ones
whose send raised, then disconnect each of those. -/
def broadcast_to_job (m : Manager) (job_id : String) (send_fails : Nat → Bool) :
    Manager × List Nat :=
  match alookup m job_id with
  | none => (m, [])
  | some conns =>
      let delivered := conns.filter fun c => !send_fails c
      let disconnected := conns.filter send_fails
      (disconnected.foldl (fun acc c => disconnect acc c job_id) m, delivered)

/-- The set of subscribers currently registered for a job (empty when the
job has no entry). -/
def connsD (m : Manager) (job_id : String) : List Nat :=
  (alookup m job_id).getD []

/-- The all-keys-nonempty invariant of `active_connections`: no job id is
ever mapped to an empty subscriber set. -/
def NonEmptyVals (m : Manager) : Prop := ∀ p ∈ m, p.2 ≠ ([] : List Nat)

/-! ### Events and the job registry (`application.py`)

`job_status` is a `defaultdict` whose default record is
`{status: "pending", result: None, error: None, debug_info: [], company:
None, report: None}`.  `manager.send_status_update` builds an event with
`status`, `message`, `error` and `result` fields.  The `result` payload
is either the final report with the company name, or a streamed report
chunk. -/

inductive UpdateResult where
  | report (report company : String)
  | chunk (chunk : String)
deriving DecidableEq

structure StatusUpdate where
  status : String
  message : Option String
  error : Option String
  result : Option UpdateResult
deriving DecidableEq

structure JobRecord where
  status : String
  result : Option UpdateResult
  error : Option String
  debug_info : List String
  company : Option String
  report : Option String
deriving DecidableEq

/-- The `defaultdict` default factory of `job_status`. -/
def default_job_record : JobRecord :=
  { status := "pending", result := none, error := none, debug_info := [],
    company := none, report := none }

abbrev Registry := List (String × JobRecord)

/-- `job_status[job_id].update(d)`: read through the `defaultdict` default
and merge-update the record in place. -/
def job_status_update (reg : Registry) (job_id : String)
    (f : JobRecord → JobRecord) : Registry :=
  match alookup reg job_id with
  | some r => aset reg job_id (f r)
  | none => reg ++ [(job_id, f default_job_record)]

/-- The record for `job_id`, read through the `defaultdict` default. -/
def registryGetD (reg : Registry) (job_id : String) : JobRecord :=
  (alookup reg job_id).getD default_job_record

/-- The merge applied on the success path of `process_research`
(`status`, `report` and `company` are written; `result`, `error` and
`debug_info` are left untouched). -/
def completed_update (rep comp : String) (r : JobRecord) : JobRecord :=
  { r with status := "completed", report := some rep, company := some comp }

def processing_update : StatusUpdate :=
  { status := "processing", message := some "Starting research",
    error := none, result := none }

def completed_event (rep comp : String) : StatusUpdate :=
  { status := "completed", message := some "Recherche terminée avec succès",
    error := none, result := some (UpdateResult.report rep comp) }

def failed_no_report_event (err : String) : StatusUpdate :=
  { status := "failed",
    message := some "La recherche s\x27est terminée mais aucun rapport n\x27a été généré",
    error := some err, result := none }

def failed_exn_event (e : String) : StatusUpdate :=
  { status := "failed", message := some ("La recherche a échoué : " ++ e),
    error := some e, result := none }

/-- The chunk events the editor emits while streaming the final report. -/
def report_chunk_event (chunk : String) : StatusUpdate :=
  { status := "report_chunk", message := some "Mise en forme du rapport final",
    error := none, result := some (UpdateResult.chunk chunk) }

/-- Python truthiness of an optional string. -/
def truthy : Option String → Option String
  | some s => if s = "" then none else some s
  | none => none

/-- `state.get('report') or (state.get('editor') or {}).get('report')`. -/
def reportContent (rep editor_rep : Option String) : Option String :=
  match truthy rep with
  | some s => some s
  | none => truthy editor_rep

/-- Outcome of `graph.run` as observed by `process_research`: either the
pipeline finished with a final state (its emitted events, `report`,
`editor.report` and `error` fields), or it raised an exception. -/
inductive GraphRun where
  | finished (events : List StatusUpdate) (report : Option String)
      (editor_report : Option String) (error : Option String)
  | raised (events : List StatusUpdate) (exn : String)

structure RunOutput where
  events : List StatusUpdate
  registry : Registry
  registryWrites : List String

/-- `process_research(job_id, data)`: emit the initial "processing"
event, run the graph, then either record `completed` in the registry and
emit the completed event, or emit a failed event (the registry is not
touched on either failure path). -/
def process_research (reg : Registry) (job_id company : String)
    (run : GraphRun) : RunOutput :=
  match run with
  | .raised evs e =>
      { events := processing_update :: (evs ++ [failed_exn_event e]),
        registry := reg, registryWrites := [] }
  | .finished evs rep editor_rep err =>
      match reportContent rep editor_rep with
      | some rc =>
          { events := processing_update :: (evs ++ [completed_event rc company]),
            registry := job_status_update reg job_id (completed_update rc company),
            registryWrites := ["completed"] }
      | none =>
          { events := processing_update ::
              (evs ++ [failed_no_report_event
                (match err with
                 | some e => "Erreur : " ++ e
                 | none => "Aucun rapport trouvé")]),
            registry := reg, registryWrites := [] }

/-- `websocket_endpoint`: after `manager.connect`, if the job id is a key
of `job_status` (membership does not materialize the default), a replay
event built from the registry record is sent; otherwise nothing is. -/
def websocket_replay (reg : Registry) (job_id : String) : Option StatusUpdate :=
  match alookup reg job_id with
  | some r =>
      some { status := r.status, message := some "Connected to status stream",
             error := r.error, result := r.result }
  | none => none

/-! ### Grounding node (`backend/nodes/grounding.py`)

`initial_search` optionally crawls the provided URL.  The crawl call is
modelled by a `CrawlOutcome` parameter: either the list of result items
(url and optional raw content) or a raised exception.  On a raise, the
error message is stored into the research state's `error` field and the
function still returns the initialized state (the pipeline proceeds). -/

inductive CrawlOutcome where
  | ok (results : List (String × Option String))
  | raised (exn : String)

structure GroundingState where
  site_scrape : List (String × String)
  error : Option String

/-- `GroundingNode.initial_search`, reduced to the fields of the returned
research state that later stages read. -/
def initial_search (company_url : Option String) (crawl : CrawlOutcome) :
    GroundingState :=
  match company_url with
  | none => { site_scrape := [], error := none }
  | some _url =>
      match crawl with
      | .ok results =>
          { site_scrape := results.filterMap fun pr =>
              match pr.2 with
              | some rc => if rc = "" then none else some (pr.1, rc)
              | none => none,
            error := none }
      | .raised e => { site_scrape := [], error := some e }

/-! ### Editor node (`backend/nodes/editor.py`)

The two generative calls are parameters: `compile_content`'s chat call
returns the whole text or raises; `content_sweep`'s call streams a list
of chunks (`delta` items, then a `stop` item) or raises.  `content_sweep`
flushes its buffer as a `report_chunk` event when the buffer holds
sentence-ending punctuation or a newline and is longer than 10
characters, and flushes any non-empty remainder at the stop signal. -/

inductive StreamItem where
  | stop
  | delta (content : Option String)

/-- The flush condition of the streaming loop:
`any(char in buffer for char in ['.', '!', '?', '\n']) and len(buffer) > 10`. -/
def flushReady (buf : String) : Bool :=
  (buf.data.any fun c => c == '.' || c == '!' || c == '?' || c == '\n') &&
    decide (10 < buf.length)

/-- The `async for chunk in response` loop of `content_sweep`: returns the
list of flushed chunk payloads and the accumulated text. -/
def sweepLoop : List StreamItem → String → String → List String × String
  | [], acc, _buf => ([], acc)
  | StreamItem.stop :: _, acc, buf => (if buf = "" then [] else [buf], acc)
  | StreamItem.delta none :: rest, acc, buf => sweepLoop rest acc buf
  | StreamItem.delta (some t) :: rest, acc, buf =>
      if t = "" then sweepLoop rest acc buf
      else
        if flushReady (buf ++ t) then
          ((buf ++ t) :: (sweepLoop rest (acc ++ t) "").1,
           (sweepLoop rest (acc ++ t) "").2)
        else sweepLoop rest (acc ++ t) (buf ++ t)

/-- `Editor.content_sweep`: on a successful stream, the flushed chunk
payloads and the stripped accumulated text; if the call raises, no chunks
and the stripped input content. -/
def content_sweep (llm : Except String (List StreamItem)) (content : String) :
    List String × String :=
  match llm with
  | .ok items => ((sweepLoop items "" "").1, pyStrip (sweepLoop items "" "").2)
  | .error _ => ([], pyStrip content)

/-- `Editor.compile_content`: on success the stripped response (with the
references section appended when present); if the call raises, the
stripped concatenation of the briefings. -/
def compile_content (llm : Except String String) (briefings : List String)
    (reference_text : String) : String :=
  match llm with
  | .ok t =>
      if reference_text = "" then pyStrip t
      else pyStrip t ++ "\n\n" ++ reference_text
  | .error _ => pyStrip (joinSep "\n\n" briefings)

/-- `Editor.edit_report`: compile, bail out with no report if the compiled
text is empty, sweep, bail out if the final text strips to empty,
otherwise store the final report.  Returns the report written to the
state (if any) and the emitted chunk payloads. -/
def edit_report (briefings : List String) (reference_text : String)
    (llm_compile : Except String String)
    (llm_sweep : Except String (List StreamItem)) :
    Option String × List String :=
  if compile_content llm_compile briefings reference_text = "" then (none, [])
  else
    if pyStrip (content_sweep llm_sweep
        (compile_content llm_compile briefings reference_text)).2 = "" then
      (none, (content_sweep llm_sweep
        (compile_content llm_compile briefings reference_text)).1)
    else
      (some (content_sweep llm_sweep
          (compile_content llm_compile briefings reference_text)).2,
       (content_sweep llm_sweep
          (compile_content llm_compile briefings reference_text)).1)

/-- `Editor.compile_briefings`: collect the truthy briefing values; if
none, no report is produced and `edit_report` is not called. -/
def compile_briefings (briefing_values : List String) (reference_text : String)
    (llm_compile : Except String String)
    (llm_sweep : Except String (List StreamItem)) :
    Option String × List String :=
  if briefing_values.filter (fun b => decide (b ≠ "")) = [] then (none, [])
  else edit_report (briefing_values.filter fun b => decide (b ≠ ""))
    reference_text llm_compile llm_sweep

/-- Scenario D's upstream stream: chunks "Sec" and "tion 1.\n", then the
stop signal. -/
def scenario_d : List StreamItem :=
  [StreamItem.delta (some "Sec"), StreamItem.delta (some "tion 1.\n"),
   StreamItem.stop]

/-- Concatenation of the flushed chunk payloads, as a subscriber would
reassemble them. -/
def concat_chunks (l : List String) : String := l.foldl (fun a b => a ++ b) ""

/-! ### Briefing node (`backend/nodes/briefing.py`)

`create_briefings` fans out one sub-task per category with curated data;
each sub-task runs `generate_category_briefing` under
`asyncio.Semaphore(2)` via `async with`.  The data flow is modelled per
category; the semaphore dynamics are modelled by `BriefStep`: a task
acquires only while the counter is positive (decrementing it) and the
release transition (incrementing it) is enabled from the `holding` phase
unconditionally — `async with` releases on every exit path, whether the
guarded call returned or raised. -/

inductive Category where
  | company
  | industry
  | financial
  | news
deriving DecidableEq

/-- `Briefing.generate_category_briefing`, as a function of the Gemini
call outcome: the stripped response text on success, the empty briefing
if the call raises (the exception is caught inside the sub-task). -/
def generate_category_briefing (gemini : Except String String) : String :=
  match gemini with
  | .ok t => pyStrip t
  | .error _ => ""

/-- `Briefing.create_briefings` data flow: a category with no curated
data gets the empty briefing without any generative call; otherwise the
briefing is whatever `generate_category_briefing` produced for that
category's own call. -/
def create_briefings (curated_nonempty : Category → Bool)
    (gemini : Category → Except String String) : Category → String :=
  fun c =>
    if curated_nonempty c then generate_category_briefing (gemini c) else ""

inductive TaskPhase where
  | waiting
  | holding
  | released
deriving DecidableEq

structure BriefSt where
  counter : Nat
  tasks : List TaskPhase
deriving DecidableEq

/-- Number of sub-tasks currently holding a limiter token. -/
def holdersCount (l : List TaskPhase) : Nat :=
  l.countP fun t => decide (t = TaskPhase.holding)

/-- One scheduler step of the briefing fan-out under
`asyncio.Semaphore(2)`: `acquire` blocks unless the counter is positive;
`release` is always enabled for a holding task. -/
inductive BriefStep : BriefSt → BriefSt → Prop where
  | acquire (s : BriefSt) (i : Nat)
      (hw : s.tasks[i]? = some TaskPhase.waiting) (hc : 0 < s.counter) :
      BriefStep s ⟨s.counter - 1, s.tasks.set i TaskPhase.holding⟩
  | release (s : BriefSt) (i : Nat)
      (hh : s.tasks[i]? = some TaskPhase.holding) :
      BriefStep s ⟨s.counter + 1, s.tasks.set i TaskPhase.released⟩

/-- Initial state: `asyncio.Semaphore(2)` fresh, all `n` briefing
sub-tasks waiting. -/
def briefInit (n : Nat) : BriefSt := ⟨2, List.replicate n TaskPhase.waiting⟩

/-- The semaphore bookkeeping invariant: counter plus holders equals the
configured capacity 2. -/
def briefInv (s : BriefSt) : Prop := s.counter + holdersCount s.tasks = 2

inductive BriefEv where
  | acquireEv
  | callEv (outcome : Except String String)
  | releaseEv

/-- Whether a trace event is the release of the limiter token. -/
def isReleaseEv : BriefEv → Bool
  | BriefEv.releaseEv => true
  | _ => false

/-- The event trace of one `process_briefing` sub-task: `async with
briefing_semaphore` brackets the guarded call, so the release event is
emitted on every exit path, for both call outcomes. -/
def process_briefing_events (outcome : Except String String) : List BriefEv :=
  [BriefEv.acquireEv, BriefEv.callEv outcome, BriefEv.releaseEv]

/-! ## Theorems -/

/-! ### String lemmas -/

theorem data_append (a b : String) : (a ++ b).data = a.data ++ b.data := rfl

theorem mem_dropWhile_of_not {α : Type} (p : α → Bool) (l : List α) (c : α)
    (hc : c ∈ l) (hp : p c = false) : c ∈ l.dropWhile p := by
  induction l with
  | nil => cases hc
  | cons a l ih =>
    rw [List.dropWhile_cons]
    by_cases h : p a = true
    · rw [if_pos h]
      rcases List.mem_cons.mp hc with h1 | h1
      · subst h1; rw [hp] at h; cases h
      · exact ih h1
    · rw [if_neg h]
      exact hc

theorem mem_stripAux (l : List Char) (c : Char) (hc : c ∈ l)
    (hp : c.isWhitespace = false) : c ∈ stripAux l := by
  unfold stripAux
  rw [List.mem_reverse]
  refine mem_dropWhile_of_not _ _ _ ?_ hp
  rw [List.mem_reverse]
  exact mem_dropWhile_of_not _ _ _ hc hp

theorem stripAux_eq_nil (l : List Char)
    (h : ∀ c ∈ l, c.isWhitespace = true) : stripAux l = [] := by
  unfold stripAux
  rw [List.dropWhile_eq_nil_iff.mpr h]
  simp

theorem pyStrip_ne_of_mem (s : String) (c : Char) (hc : c ∈ s.data)
    (hp : c.isWhitespace = false) : pyStrip s ≠ "" := by
  intro h
  have hmem : c ∈ stripAux s.data := mem_stripAux s.data c hc hp
  have hnil : stripAux s.data = [] := congrArg String.data h
  rw [hnil] at hmem
  cases hmem

theorem exists_not_ws_of_pyStrip_ne (s : String) (h : pyStrip s ≠ "") :
    ∃ c ∈ s.data, c.isWhitespace = false := by
  by_contra hall
  push_neg at hall
  apply h
  have : stripAux s.data = [] := by
    apply stripAux_eq_nil
    intro c hc
    have := hall c hc
    simp at this
    exact this
  unfold pyStrip
  rw [this]

theorem mem_pyStrip (s : String) (c : Char) (hc : c ∈ s.data)
    (hp : c.isWhitespace = false) : c ∈ (pyStrip s).data :=
  mem_stripAux s.data c hc hp

theorem mem_joinSep (sep : String) (bs : List String) (b : String) (c : Char)
    (hb : b ∈ bs) (hc : c ∈ b.data) : c ∈ (joinSep sep bs).data := by
  induction bs with
  | nil => cases hb
  | cons s rest ih =>
    cases rest with
    | nil =>
      rcases List.mem_cons.mp hb with h1 | h1
      · subst h1; exact hc
      · cases h1
    | cons r rest' =>
      show c ∈ (s ++ sep ++ joinSep sep (r :: rest')).data
      rw [data_append, data_append]
      rcases List.mem_cons.mp hb with h1 | h1
      · subst h1
        exact List.mem_append_left _ (List.mem_append_left _ hc)
      · exact List.mem_append_right _ (ih h1)

/-! ### Association-list lemmas -/

theorem alookup_aset_self {β : Type} (l : List (String × β)) (k : String)
    (v : β) : alookup (aset l k v) k = (alookup l k).map fun _ => v := by
  induction l with
  | nil => rfl
  | cons p rest ih =>
    by_cases h : p.1 = k
    · simp [aset, alookup, h]
    · simp [aset, alookup, h]
      simpa [aset] using ih

theorem alookup_aremove_self {β : Type} (l : List (String × β)) (k : String) :
    alookup (aremove l k) k = none := by
  induction l with
  | nil => rfl
  | cons p rest ih =>
    by_cases h : p.1 = k
    · simpa [aremove, h] using ih
    · simpa [aremove, alookup, h] using ih

theorem alookup_append_right {β : Type} (l1 l2 : List (String × β))
    (k : String) (h : alookup l1 k = none) :
    alookup (l1 ++ l2) k = alookup l2 k := by
  induction l1 with
  | nil => rfl
  | cons p rest ih =>
    by_cases hp : p.1 = k
    · simp [alookup, hp] at h
    · simp [alookup, hp] at h ⊢
      exact ih h

theorem mem_of_alookup {β : Type} (l : List (String × β)) (k : String)
    (v : β) (h : alookup l k = some v) : (k, v) ∈ l := by
  induction l with
  | nil => cases h
  | cons p rest ih =>
    by_cases hp : p.1 = k
    · simp [alookup, hp] at h
      cases p with
      | mk a b =>
        simp at hp
        subst hp
        subst h
        exact List.mem_cons_self _ _
    · simp [alookup, hp] at h
      exact List.mem_cons_of_mem _ (ih h)

theorem alookup_aset_of_some {β : Type} (l : List (String × β)) (k : String)
    (v0 v : β) (h : alookup l k = some v0) :
    alookup (aset l k v) k = some v := by
  rw [alookup_aset_self, h]
  rfl

theorem mem_aset {β : Type} (l : List (String × β)) (k : String) (v : β)
    (p : String × β) (h : p ∈ aset l k v) : p = (k, v) ∨ p ∈ l := by
  unfold aset at h
  rcases List.mem_map.mp h with ⟨q, hq, hqe⟩
  by_cases hk : q.1 = k
  · rw [if_pos hk] at hqe; exact Or.inl hqe.symm
  · rw [if_neg hk] at hqe; exact Or.inr (hqe ▸ hq)

theorem aset_aset {β : Type} (l : List (String × β)) (k : String) (v w : β) :
    aset (aset l k v) k w = aset l k w := by
  induction l with
  | nil => rfl
  | cons p rest ih =>
    by_cases h : p.1 = k
    · simp [aset, h] at ih ⊢
      exact ih
    · simp [aset, h] at ih ⊢
      exact ih

/-! ### Notification-hub lemmas -/

theorem connsD_disconnect (m : Manager) (ws : Nat) (j : String) :
    connsD (disconnect m ws j) j =
      (connsD m j).filter fun c => decide (c ≠ ws) := by
  unfold disconnect connsD
  cases h : alookup m j with
  | none => simp [h]
  | some conns =>
    by_cases he : conns.filter (fun c => decide (c ≠ ws)) = []
    · simp only [h, he, if_pos]
      rw [alookup_aremove_self]
      exact he.symm
    · simp only [h, if_neg he]
      rw [alookup_aset_self, h]
      rfl

theorem connsD_disconnect_subset (m : Manager) (ws : Nat) (j : String) :
    ∀ c ∈ connsD (disconnect m ws j) j, c ∈ connsD m j := by
  intro c hc
  rw [connsD_disconnect] at hc
  exact (List.mem_filter.mp hc).1

theorem connsD_fold_disconnect_subset (L : List Nat) (m : Manager)
    (j : String) :
    ∀ c ∈ connsD (L.foldl (fun acc x => disconnect acc x j) m) j,
      c ∈ connsD m j := by
  induction L generalizing m with
  | nil => intro c hc; exact hc
  | cons x xs ih =>
    intro c hc
    rw [List.foldl_cons] at hc
    exact connsD_disconnect_subset m x j c (ih (disconnect m x j) c hc)

theorem not_mem_connsD_fold (L : List Nat) (m : Manager) (j : String)
    (c : Nat) (hc : c ∈ L) :
    c ∉ connsD (L.foldl (fun acc x => disconnect acc x j) m) j := by
  induction L generalizing m with
  | nil => cases hc
  | cons x xs ih =>
    rw [List.foldl_cons]
    rcases List.mem_cons.mp hc with h1 | h1
    · subst h1
      intro hmem
      have hin := connsD_fold_disconnect_subset xs (disconnect m c j) j c hmem
      rw [connsD_disconnect] at hin
      have := (List.mem_filter.mp hin).2
      simp at this
    · exact ih (disconnect m x j) h1

/-- C6: a delivery failure to one subscriber does not prevent delivery to
the remaining subscribers of the job, and every subscriber whose delivery
failed is unregistered from the job by the end of `broadcast_to_job`
(which is a total function: every exception of `send_text` is caught). -/
theorem c6_broadcast_failure_isolation (m : Manager) (j : String)
    (send_fails : Nat → Bool) :
    (∀ c, c ∈ connsD m j → send_fails c = false →
      c ∈ (broadcast_to_job m j send_fails).2) ∧
    (∀ c, send_fails c = true →
      c ∉ connsD (broadcast_to_job m j send_fails).1 j) := by
  constructor
  · intro c hc hf
    unfold broadcast_to_job
    cases h : alookup m j with
    | none =>
      rw [connsD, h] at hc
      cases hc
    | some conns =>
      rw [connsD, h] at hc
      exact List.mem_filter.mpr ⟨hc, by simp [hf]⟩
  · intro c hf
    unfold broadcast_to_job
    cases h : alookup m j with
    | none =>
      show c ∉ connsD m j
      simp [connsD, h]
    | some conns =>
      by_cases hcc : c ∈ conns
      · exact not_mem_connsD_fold _ m j c (List.mem_filter.mpr ⟨hcc, hf⟩)
      · intro hmem
        apply hcc
        have := connsD_fold_disconnect_subset (conns.filter send_fails) m j c hmem
        rw [connsD, h] at this
        exact this

/-- C6 witness: with subscribers 1 and 2 registered for a job and
delivery to 2 failing, 1 still receives the event and 2 is unregistered. -/
theorem c6_witness :
    1 ∈ (broadcast_to_job [("job-1", [1, 2])] "job-1"
          (fun c => decide (c = 2))).2 ∧
    2 ∉ connsD (broadcast_to_job [("job-1", [1, 2])] "job-1"
          (fun c => decide (c = 2))).1 "job-1" :=
  ⟨(c6_broadcast_failure_isolation [("job-1", [1, 2])] "job-1"
      (fun c => decide (c = 2))).1 1 (by decide) (by decide),
   (c6_broadcast_failure_isolation [("job-1", [1, 2])] "job-1"
      (fun c => decide (c = 2))).2 2 (by decide)⟩

/-- C7: publishing after an unsubscribe makes no delivery attempt to the
removed subscriber, a second unsubscribe of the same subscriber leaves
the hub state unchanged, and publishing to a job with no registered
subscribers is a silent no-op. -/
theorem c7_unsubscribe_then_publish (m : Manager) (ws : Nat) (j : String)
    (send_fails : Nat → Bool) :
    ws ∉ (broadcast_to_job (disconnect m ws j) j send_fails).2 ∧
    disconnect (disconnect m ws j) ws j = disconnect m ws j ∧
    (alookup m j = none → broadcast_to_job m j send_fails = (m, [])) := by
  refine ⟨?_, ?_, ?_⟩
  · intro hmem
    unfold broadcast_to_job at hmem
    cases h : alookup (disconnect m ws j) j with
    | none => rw [h] at hmem; cases hmem
    | some conns' =>
      rw [h] at hmem
      have h1 : ws ∈ conns' := (List.mem_filter.mp hmem).1
      have h2 : conns' = connsD (disconnect m ws j) j := by
        rw [connsD, h]
        rfl
      rw [h2, connsD_disconnect] at h1
      have := (List.mem_filter.mp h1).2
      simp at this
  · unfold disconnect
    cases h : alookup m j with
    | none => rw [h]
    | some conns =>
      by_cases he : conns.filter (fun c => decide (c ≠ ws)) = []
      · simp only [if_pos he]
        rw [alookup_aremove_self]
      · simp only [if_neg he]
        have hs := alookup_aset_of_some m j conns
          (conns.filter fun c => decide (c ≠ ws)) h
        simp only [hs]
        have hfix : (conns.filter (fun c => decide (c ≠ ws))).filter
            (fun c => decide (c ≠ ws)) = conns.filter (fun c => decide (c ≠ ws)) := by
          apply List.filter_eq_self.mpr
          intro a ha
          exact (List.mem_filter.mp ha).2
        rw [hfix, if_neg he, aset_aset]
  · intro h
    unfold broadcast_to_job
    rw [h]

/-- C7 witness: concrete instance with subscribers 3 and 4 registered,
3 unsubscribed, and a publish to a job with no subscribers at all. -/
theorem c7_witness :
    3 ∉ (broadcast_to_job (disconnect [("job-1", [3, 4])] 3 "job-1") "job-1"
          (fun _ => false)).2 ∧
    disconnect (disconnect [("job-1", [3, 4])] 3 "job-1") 3 "job-1" =
      disconnect [("job-1", [3, 4])] 3 "job-1" ∧
    broadcast_to_job ([] : Manager) "job-1" (fun _ => false) = ([], []) :=
  ⟨(c7_unsubscribe_then_publish [("job-1", [3, 4])] 3 "job-1" (fun _ => false)).1,
   (c7_unsubscribe_then_publish [("job-1", [3, 4])] 3 "job-1" (fun _ => false)).2.1,
   (c7_unsubscribe_then_publish ([] : Manager) 3 "job-1" (fun _ => false)).2.2 rfl⟩

/-- C9: the subscriber map never holds a key with an empty set: `connect`
leaves every entry non-empty and puts the new subscriber in the job's
entry, and `disconnect` deletes the entry instead of leaving it empty. -/
theorem c9_no_empty_entry (m : Manager) (ws : Nat) (j : String)
    (h : NonEmptyVals m) :
    NonEmptyVals (connect m ws j) ∧
    ws ∈ connsD (connect m ws j) j ∧
    NonEmptyVals (disconnect m ws j) := by
  refine ⟨?_, ?_, ?_⟩
  · intro p hp
    unfold connect at hp
    cases h1 : alookup m j with
    | none =>
      rw [h1] at hp
      rcases List.mem_append.mp hp with h2 | h2
      · exact h p h2
      · rcases List.mem_cons.mp h2 with h3 | h3
        · rw [h3]; simp
        · cases h3
    | some conns =>
      rw [h1] at hp
      rcases mem_aset _ _ _ _ hp with h2 | h2
      · have hcne : conns ≠ [] := h (j, conns) (mem_of_alookup m j conns h1)
        rw [h2]
        show (if ws ∈ conns then conns else conns ++ [ws]) ≠ []
        by_cases h3 : ws ∈ conns
        · rw [if_pos h3]; exact hcne
        · rw [if_neg h3]; simp
      · exact h p h2
  · unfold connect connsD
    cases h1 : alookup m j with
    | none =>
      rw [alookup_append_right m _ j h1]
      simp [alookup]
    | some conns =>
      rw [alookup_aset_self, h1]
      show ws ∈ (if ws ∈ conns then conns else conns ++ [ws])
      by_cases h3 : ws ∈ conns
      · rw [if_pos h3]; exact h3
      · rw [if_neg h3]; exact List.mem_append_right _ (List.mem_cons_self ws [])
  · intro p hp
    unfold disconnect at hp
    cases h1 : alookup m j with
    | none => rw [h1] at hp; exact h p hp
    | some conns =>
      rw [h1] at hp
      have hp' : p ∈ (if conns.filter (fun c => decide (c ≠ ws)) = [] then
          aremove m j else aset m j (conns.filter fun c => decide (c ≠ ws))) := hp
      by_cases he : conns.filter (fun c => decide (c ≠ ws)) = []
      · rw [if_pos he] at hp'
        exact h p (List.mem_filter.mp hp').1
      · rw [if_neg he] at hp'
        rcases mem_aset _ _ _ _ hp' with h2 | h2
        · rw [h2]; exact he
        · exact h p h2

/-- C9 witness: starting from the empty map, connecting subscriber 5 and
then disconnecting from a fresh map both preserve the invariant. -/
theorem c9_witness :
    NonEmptyVals (connect [] 5 "job-1") ∧
    5 ∈ connsD (connect [] 5 "job-1") "job-1" ∧
    NonEmptyVals (disconnect [] 5 "job-1") :=
  c9_no_empty_entry [] 5 "job-1" (fun p hp => absurd hp (List.not_mem_nil p))

/-! ### Registry and replay lemmas -/

theorem process_research_finished_eq (reg : Registry) (j comp : String)
    (evs : List StatusUpdate) (rep erep err : Option String) :
    process_research reg j comp (GraphRun.finished evs rep erep err) =
      (match reportContent rep erep with
       | some rc =>
           ({ events := processing_update :: (evs ++ [completed_event rc comp]),
              registry := job_status_update reg j (completed_update rc comp),
              registryWrites := ["completed"] } : RunOutput)
       | none =>
           { events := processing_update ::
               (evs ++ [failed_no_report_event
                 (match err with
                  | some e => "Erreur : " ++ e
                  | none => "Aucun rapport trouvé")]),
             registry := reg, registryWrites := [] }) := rfl

/-- C1 counterexample: a run that finishes without a report (a failed
run) never writes to the registry, so a subscriber attaching afterwards
receives no replay event at all — in particular not the failed event the
claim requires. -/
theorem c1_counterexample :
    websocket_replay
      (process_research [] "job-1" "ACME"
        (GraphRun.finished [] none none (some "boom"))).registry "job-1" = none := rfl

/-- C1 (amended): a subscriber attaching after a successful run receives
exactly one replay event, with status `completed` (and empty error and
result fields) matching the registry record; after a run that found no
report, or that raised, the registry is untouched, so for a fresh job id
the attaching subscriber receives no replay event at all. -/
theorem c1_amended_replay (reg : Registry) (j comp rc : String)
    (evs evs' : List StatusUpdate) (rep editor_rep err err' : Option String)
    (hfresh : alookup reg j = none)
    (hrc : reportContent rep editor_rep = some rc) :
    websocket_replay (process_research reg j comp
        (GraphRun.finished evs rep editor_rep err)).registry j =
      some { status := "completed", message := some "Connected to status stream",
             error := none, result := none } ∧
    websocket_replay (process_research reg j comp
        (GraphRun.finished evs' none none err')).registry j = none ∧
    websocket_replay (process_research reg j comp
        (GraphRun.raised evs' "boom")).registry j = none := by
  refine ⟨?_, ?_, ?_⟩
  · rw [process_research_finished_eq, hrc]
    show websocket_replay (job_status_update reg j (completed_update rc comp)) j = _
    unfold websocket_replay job_status_update
    rw [hfresh]
    rw [alookup_append_right reg _ j hfresh]
    simp [alookup, completed_update, default_job_record]
  · show websocket_replay reg j = none
    unfold websocket_replay
    rw [hfresh]
  · show websocket_replay reg j = none
    unfold websocket_replay
    rw [hfresh]

/-- C1 witness: concrete successful, report-less and raising runs from an
empty registry. -/
theorem c1_witness :
    websocket_replay (process_research [] "job-1" "ACME"
        (GraphRun.finished [] (some "R") none none)).registry "job-1" =
      some { status := "completed", message := some "Connected to status stream",
             error := none, result := none } ∧
    websocket_replay (process_research [] "job-1" "ACME"
        (GraphRun.finished [] none none none)).registry "job-1" = none ∧
    websocket_replay (process_research [] "job-1" "ACME"
        (GraphRun.raised [] "boom")).registry "job-1" = none :=
  c1_amended_replay [] "job-1" "ACME" "R" [] [] (some "R") none none none rfl rfl

/-- C2 counterexample: the first (and only) status a successful run
records in the registry is `completed`, not `processing`; a run that
finds no report records nothing at all, not `failed`. -/
theorem c2_counterexample :
    (process_research [] "job-1" "ACME"
      (GraphRun.finished [] (some "R") none none)).registryWrites = ["completed"] ∧
    (process_research [] "job-1" "ACME"
      (GraphRun.finished [] none none none)).registryWrites = [] := ⟨rfl, rfl⟩

/-- C2 (amended): the registry is written at most once per run — a
successful run writes exactly `completed` (merged onto the default
`pending` record) and every other run leaves the registry untouched;
`processing` and `failed` are never recorded in the registry, so no
transition out of a terminal state is ever recorded there. -/
theorem c2_amended_registry (reg : Registry) (j comp : String) (run : GraphRun) :
    ((process_research reg j comp run).registryWrites = [] ∧
      (process_research reg j comp run).registry = reg) ∨
    ((process_research reg j comp run).registryWrites = ["completed"] ∧
      (registryGetD (process_research reg j comp run).registry j).status =
        "completed") := by
  cases run with
  | raised evs e => exact Or.inl ⟨rfl, rfl⟩
  | finished evs rep erep err =>
    rw [process_research_finished_eq]
    cases hrc : reportContent rep erep with
    | none => exact Or.inl ⟨rfl, rfl⟩
    | some rc =>
      right
      refine ⟨rfl, ?_⟩
      show (registryGetD (job_status_update reg j (completed_update rc comp)) j).status = "completed"
      unfold registryGetD job_status_update
      cases h1 : alookup reg j with
      | some r =>
        rw [alookup_aset_of_some reg j r (completed_update rc comp r) h1]
        rfl
      | none =>
        rw [alookup_append_right reg _ j h1]
        simp [alookup, completed_update]

/-! ### Grounding theorems (C4) -/

/-- C4 counterexample: with a crawl that raises and a pipeline that still
produces a report, the job completes — but the registry record's
`debug_info` stays empty, so the crawl error does not appear in the
job's debug info (the claim says it does). -/
theorem c4_counterexample :
    (initial_search (some "https://acme.example") (CrawlOutcome.raised "timeout")).error
      = some "timeout" ∧
    (registryGetD (process_research [] "job-1" "ACME"
        (GraphRun.finished [] (some "R") none
          (initial_search (some "https://acme.example")
            (CrawlOutcome.raised "timeout")).error)).registry "job-1").debug_info
      = [] ∧
    (registryGetD (process_research [] "job-1" "ACME"
        (GraphRun.finished [] (some "R") none
          (initial_search (some "https://acme.example")
            (CrawlOutcome.raised "timeout")).error)).registry "job-1").status
      = "completed" := ⟨rfl, rfl, rfl⟩

/-- C4 (amended): a crawl failure is non-fatal — the error is recorded in
the pipeline state's `error` field during grounding, and when the rest of
the pipeline still produces a non-empty report the job completes: the
registry record has status `completed`, the report attached, an empty
`error` field and an empty `debug_info` (the crawl error appears in
neither registry field), and the terminal event is the completed event. -/
theorem c4_amended_crawl_nonfatal (reg : Registry) (url e j comp rep : String)
    (evs : List StatusUpdate) (hrep : rep ≠ "") (hfresh : alookup reg j = none) :
    (initial_search (some url) (CrawlOutcome.raised e)).error = some e ∧
    ((registryGetD (process_research reg j comp
        (GraphRun.finished evs (some rep) none
          (initial_search (some url) (CrawlOutcome.raised e)).error)).registry
        j).status = "completed" ∧
     (registryGetD (process_research reg j comp
        (GraphRun.finished evs (some rep) none
          (initial_search (some url) (CrawlOutcome.raised e)).error)).registry
        j).report = some rep ∧
     (registryGetD (process_research reg j comp
        (GraphRun.finished evs (some rep) none
          (initial_search (some url) (CrawlOutcome.raised e)).error)).registry
        j).error = none ∧
     (registryGetD (process_research reg j comp
        (GraphRun.finished evs (some rep) none
          (initial_search (some url) (CrawlOutcome.raised e)).error)).registry
        j).debug_info = []) ∧
    (process_research reg j comp
        (GraphRun.finished evs (some rep) none
          (initial_search (some url) (CrawlOutcome.raised e)).error)).events =
      processing_update :: (evs ++ [completed_event rep comp]) := by
  have hrc : reportContent (some rep) none = some rep := by
    simp [reportContent, truthy, hrep]
  have hreg : (process_research reg j comp
      (GraphRun.finished evs (some rep) none
        (initial_search (some url) (CrawlOutcome.raised e)).error)) =
      { events := processing_update :: (evs ++ [completed_event rep comp]),
        registry := job_status_update reg j (completed_update rep comp),
        registryWrites := ["completed"] } := by
    rw [process_research_finished_eq, hrc]
  refine ⟨rfl, ?_, ?_⟩
  · rw [hreg]
    have hget : registryGetD (job_status_update reg j (completed_update rep comp)) j
        = completed_update rep comp default_job_record := by
      unfold registryGetD job_status_update
      rw [hfresh]
      rw [alookup_append_right reg _ j hfresh]
      simp [alookup]
    rw [hget]
    exact ⟨rfl, rfl, rfl, rfl⟩
  · rw [hreg]

/-- C4 witness: concrete crawl timeout with a successful analysis and a
non-empty report. -/
theorem c4_witness :
    (initial_search (some "https://acme.example") (CrawlOutcome.raised "timeout")).error
      = some "timeout" ∧
    ((registryGetD (process_research [] "job-2" "ACME"
        (GraphRun.finished [] (some "Rapport") none
          (initial_search (some "https://acme.example")
            (CrawlOutcome.raised "timeout")).error)).registry "job-2").status
      = "completed" ∧
     (registryGetD (process_research [] "job-2" "ACME"
        (GraphRun.finished [] (some "Rapport") none
          (initial_search (some "https://acme.example")
            (CrawlOutcome.raised "timeout")).error)).registry "job-2").report
      = some "Rapport" ∧
     (registryGetD (process_research [] "job-2" "ACME"
        (GraphRun.finished [] (some "Rapport") none
          (initial_search (some "https://acme.example")
            (CrawlOutcome.raised "timeout")).error)).registry "job-2").error
      = none ∧
     (registryGetD (process_research [] "job-2" "ACME"
        (GraphRun.finished [] (some "Rapport") none
          (initial_search (some "https://acme.example")
            (CrawlOutcome.raised "timeout")).error)).registry "job-2").debug_info
      = []) ∧
    (process_research [] "job-2" "ACME"
        (GraphRun.finished [] (some "Rapport") none
          (initial_search (some "https://acme.example")
            (CrawlOutcome.raised "timeout")).error)).events =
      processing_update :: ([] ++ [completed_event "Rapport" "ACME"]) :=
  c4_amended_crawl_nonfatal [] "https://acme.example" "timeout" "job-2" "ACME"
    "Rapport" [] (by decide) rfl

/-! ### Editor theorems (C3, C8, C10) -/

theorem content_sweep_error (e content : String) :
    content_sweep (Except.error e) content = ([], pyStrip content) := rfl

theorem compile_content_error (e : String) (briefings : List String)
    (reference_text : String) :
    compile_content (Except.error e) briefings reference_text =
      pyStrip (joinSep "\n\n" briefings) := rfl

/-- C3 counterexample: on the stream "Sec", "tion 1.\n", stop, the loop
emits exactly one chunk event (the first chunk alone never meets the
flush condition), not two. -/
theorem c3_counterexample :
    (content_sweep (Except.ok scenario_d) "previous").1 = ["Section 1.\n"] ∧
    ((content_sweep (Except.ok scenario_d) "previous").1).length ≠ 2 := by
  refine ⟨rfl, ?_⟩
  decide

/-- C3 (amended): on the stream "Sec", "tion 1.\n", stop, a subscriber
observes exactly one chunk event whose payload reconstructs
"Section 1.\n" exactly — "Sec" meets no flush condition while the grown
buffer "Section 1.\n" contains sentence punctuation and exceeds the
10-character threshold, and the buffer is empty at the stop signal so no
remainder flush happens — followed by the terminal completed event of the
run. -/
theorem c3_amended_streaming :
    (content_sweep (Except.ok scenario_d) "x").1 = ["Section 1.\n"] ∧
    concat_chunks (content_sweep (Except.ok scenario_d) "x").1 = "Section 1.\n" ∧
    (content_sweep (Except.ok scenario_d) "x").2 = "Section 1." ∧
    flushReady "Sec" = false ∧
    flushReady "Section 1.\n" = true ∧
    (process_research [] "job-1" "ACME"
      (GraphRun.finished
        ((content_sweep (Except.ok scenario_d) "x").1.map report_chunk_event)
        (some (content_sweep (Except.ok scenario_d) "x").2) none none)).events =
      [processing_update, report_chunk_event "Section 1.\n",
       completed_event "Section 1." "ACME"] :=
  ⟨rfl, rfl, rfl, rfl, rfl, rfl⟩

/-- C8: when all four analyzers return zero documents, every category's
briefing is empty, the editing stage is skipped and produces no report
and no chunk events, and the run ends with a terminal failed event whose
error message says no report was found. -/
theorem c8_all_analyzers_empty (reg : Registry) (j comp reference_text : String)
    (gemini : Category → Except String String)
    (llm_compile : Except String String)
    (llm_sweep : Except String (List StreamItem)) (evs : List StatusUpdate) :
    (∀ c : Category, create_briefings (fun _ => false) gemini c = "") ∧
    compile_briefings
      [create_briefings (fun _ => false) gemini Category.company,
       create_briefings (fun _ => false) gemini Category.industry,
       create_briefings (fun _ => false) gemini Category.financial,
       create_briefings (fun _ => false) gemini Category.news]
      reference_text llm_compile llm_sweep = (none, []) ∧
    (process_research reg j comp
        (GraphRun.finished evs
          (compile_briefings
            [create_briefings (fun _ => false) gemini Category.company,
             create_briefings (fun _ => false) gemini Category.industry,
             create_briefings (fun _ => false) gemini Category.financial,
             create_briefings (fun _ => false) gemini Category.news]
            reference_text llm_compile llm_sweep).1
          none none)).events.getLast? =
      some (failed_no_report_event "Aucun rapport trouvé") := by
  refine ⟨fun c => rfl, rfl, ?_⟩
  show (processing_update ::
      (evs ++ [failed_no_report_event "Aucun rapport trouvé"])).getLast? =
    some (failed_no_report_event "Aucun rapport trouvé")
  rw [show processing_update ::
      (evs ++ [failed_no_report_event "Aucun rapport trouvé"]) =
      (processing_update :: evs) ++ [failed_no_report_event "Aucun rapport trouvé"]
    from rfl]
  exact List.getLast?_concat _

theorem edit_report_both_error (briefings : List String)
    (reference_text e1 e2 : String)
    (h1 : pyStrip (joinSep "\n\n" briefings) ≠ "")
    (h2 : pyStrip (pyStrip (pyStrip (joinSep "\n\n" briefings))) ≠ "") :
    edit_report briefings reference_text (Except.error e1) (Except.error e2) =
      (some (pyStrip (pyStrip (joinSep "\n\n" briefings))), []) := by
  unfold edit_report
  rw [compile_content_error]
  rw [if_neg h1]
  simp only [content_sweep_error]
  rw [if_neg h2]

theorem edit_report_sweep_error (briefings : List String)
    (reference_text t e2 : String)
    (h1 : compile_content (Except.ok t) briefings reference_text ≠ "")
    (h2 : pyStrip (pyStrip (compile_content (Except.ok t) briefings
      reference_text)) ≠ "") :
    edit_report briefings reference_text (Except.ok t) (Except.error e2) =
      (some (pyStrip (compile_content (Except.ok t) briefings reference_text)),
       []) := by
  unfold edit_report
  rw [if_neg h1]
  simp only [content_sweep_error]
  rw [if_neg h2]

/-- C10 counterexample: a whitespace-only briefing is non-empty (and
Python-truthy, so it reaches the editor), yet when the compile call
throws, the fallback strips it to nothing and the editor produces no
report at all. -/
theorem c10_counterexample :
    (" " : String) ≠ "" ∧
    compile_briefings [" "] "" (Except.error "rate limit")
      (Except.error "timeout") = (none, []) := by
  refine ⟨?_, rfl⟩
  decide

/-- C10 (amended): the editor degrades instead of discarding content on
generative failure — a throwing compile call returns the stripped
concatenated briefings, a throwing cleanup call returns its stripped
input — and whenever at least one briefing has non-whitespace content
(pipeline-produced briefings are stripped, so every non-empty one
qualifies), a generative failure in either editing call never by itself
yields an empty final report. -/
theorem c10_amended_degradation (briefings : List String)
    (reference_text content e1 e2 : String)
    (hb : ∃ b ∈ briefings, pyStrip b ≠ "") :
    compile_content (Except.error e1) briefings reference_text =
      pyStrip (joinSep "\n\n" briefings) ∧
    (content_sweep (Except.error e2) content).2 = pyStrip content ∧
    (∃ r, edit_report briefings reference_text (Except.error e1)
        (Except.error e2) = (some r, []) ∧ r ≠ "") ∧
    (∀ t : String,
      pyStrip (compile_content (Except.ok t) briefings reference_text) ≠ "" →
      ∃ r, edit_report briefings reference_text (Except.ok t)
          (Except.error e2) = (some r, []) ∧ r ≠ "") := by
  obtain ⟨b, hbmem, hbne⟩ := hb
  obtain ⟨c0, hc0, hws⟩ := exists_not_ws_of_pyStrip_ne b hbne
  have hJ : c0 ∈ (joinSep "\n\n" briefings).data :=
    mem_joinSep "\n\n" briefings b c0 hbmem hc0
  have h1 : pyStrip (joinSep "\n\n" briefings) ≠ "" :=
    pyStrip_ne_of_mem _ _ hJ hws
  have hc1 : c0 ∈ (pyStrip (joinSep "\n\n" briefings)).data :=
    mem_pyStrip _ _ hJ hws
  have hc2 : c0 ∈ (pyStrip (pyStrip (joinSep "\n\n" briefings))).data :=
    mem_pyStrip _ _ hc1 hws
  have h2 : pyStrip (pyStrip (pyStrip (joinSep "\n\n" briefings))) ≠ "" :=
    pyStrip_ne_of_mem _ _ hc2 hws
  have h3 : pyStrip (pyStrip (joinSep "\n\n" briefings)) ≠ "" :=
    pyStrip_ne_of_mem _ _ hc1 hws
  refine ⟨rfl, rfl, ?_, ?_⟩
  · exact ⟨pyStrip (pyStrip (joinSep "\n\n" briefings)),
      edit_report_both_error briefings reference_text e1 e2 h1 h2, h3⟩
  · intro t hps
    have hne : compile_content (Except.ok t) briefings reference_text ≠ "" := by
      intro heq
      apply hps
      rw [heq]
      rfl
    obtain ⟨d0, hd0, hdws⟩ := exists_not_ws_of_pyStrip_ne _ hps
    have hd1 : d0 ∈ (pyStrip (compile_content (Except.ok t) briefings
        reference_text)).data := mem_pyStrip _ _ hd0 hdws
    have h4 : pyStrip (pyStrip (compile_content (Except.ok t) briefings
        reference_text)) ≠ "" := pyStrip_ne_of_mem _ _ hd1 hdws
    exact ⟨pyStrip (compile_content (Except.ok t) briefings reference_text),
      edit_report_sweep_error briefings reference_text t e2 hne h4, hps⟩

/-- C10 witness: a single real briefing, a throwing compile call and a
throwing cleanup call still yield a non-empty report. -/
theorem c10_witness :
    compile_content (Except.error "rate") ["Présentation."] "" =
      pyStrip (joinSep "\n\n" ["Présentation."]) ∧
    (content_sweep (Except.error "timeout") "Corps").2 = pyStrip "Corps" ∧
    (∃ r, edit_report ["Présentation."] "" (Except.error "rate")
        (Except.error "timeout") = (some r, []) ∧ r ≠ "") ∧
    (∃ r, edit_report ["Présentation."] "" (Except.ok "Rapport final")
        (Except.error "timeout") = (some r, []) ∧ r ≠ "") := by
  have h := c10_amended_degradation ["Présentation."] "" "Corps" "rate" "timeout"
    ⟨"Présentation.", List.mem_cons_self _ _, by decide⟩
  exact ⟨h.1, h.2.1, h.2.2.1, h.2.2.2 "Rapport final" (by decide)⟩

/-! ### Briefing-limiter theorems (C5) -/

theorem countP_set_get (p : TaskPhase → Bool) (l : List TaskPhase) (i : Nat)
    (a b : TaskPhase) (h : l[i]? = some a) :
    (l.set i b).countP p + (if p a then 1 else 0) =
      l.countP p + (if p b then 1 else 0) := by
  induction l generalizing i with
  | nil => simp at h
  | cons x xs ih =>
    cases i with
    | zero =>
      simp at h
      subst h
      show (b :: xs).countP p + _ = (x :: xs).countP p + _
      simp only [List.countP_cons]
      omega
    | succ n =>
      simp at h
      have hrec := ih n h
      show (x :: xs.set n b).countP p + _ = (x :: xs).countP p + _
      simp only [List.countP_cons]
      omega

theorem briefInv_preserved {s t : BriefSt} (h : BriefStep s t)
    (hs : briefInv s) : briefInv t := by
  cases h with
  | acquire i hw hc =>
    have hcount := countP_set_get (fun t => decide (t = TaskPhase.holding))
      s.tasks i TaskPhase.waiting TaskPhase.holding hw
    simp at hcount
    unfold briefInv holdersCount at hs ⊢
    show s.counter - 1 +
      (s.tasks.set i TaskPhase.holding).countP
        (fun t => decide (t = TaskPhase.holding)) = 2
    omega
  | release i hh =>
    have hcount := countP_set_get (fun t => decide (t = TaskPhase.holding))
      s.tasks i TaskPhase.holding TaskPhase.released hh
    simp at hcount
    unfold briefInv holdersCount at hs ⊢
    show s.counter + 1 +
      (s.tasks.set i TaskPhase.released).countP
        (fun t => decide (t = TaskPhase.holding)) = 2
    omega

theorem holdersCount_replicate (n : Nat) :
    holdersCount (List.replicate n TaskPhase.waiting) = 0 := by
  induction n with
  | zero => rfl
  | succ k ih =>
    unfold holdersCount at ih ⊢
    rw [List.replicate_succ, List.countP_cons]
    simp [ih]

theorem holders_le_two_of_reachable (n : Nat) (s : BriefSt)
    (h : Relation.ReflTransGen BriefStep (briefInit n) s) :
    holdersCount s.tasks ≤ 2 := by
  have hinv : briefInv s := by
    induction h with
    | refl =>
      unfold briefInv briefInit
      simp [holdersCount_replicate]
    | tail hst hstep ih => exact briefInv_preserved hstep ih
  unfold briefInv at hinv
  omega

/-- C5: at most 2 briefing sub-tasks ever hold the limiter concurrently
in any reachable scheduling of the fan-out; the sub-task trace contains
exactly one release event whatever the guarded call's outcome (the token
is released on every exit path, including a throw); and a sub-task
failure degrades only that category's briefing to the empty string
without failing the stage — a category's briefing depends only on its
own call. -/
theorem c5_limiter_and_degradation :
    (∀ (n : Nat) (s : BriefSt),
        Relation.ReflTransGen BriefStep (briefInit n) s →
        holdersCount s.tasks ≤ 2) ∧
    (∀ o : Except String String,
        (process_briefing_events o).countP isReleaseEv = 1) ∧
    (∀ e : String, generate_category_briefing (Except.error e) = "") ∧
    (∀ (curated_nonempty : Category → Bool)
        (gemini : Category → Except String String) (c : Category) (e : String),
        gemini c = Except.error e →
        create_briefings curated_nonempty gemini c = "") ∧
    (∀ (curated_nonempty : Category → Bool)
        (gemini gemini' : Category → Except String String) (c : Category),
        gemini c = gemini' c →
        create_briefings curated_nonempty gemini c =
          create_briefings curated_nonempty gemini' c) := by
  refine ⟨holders_le_two_of_reachable, fun o => rfl, fun e => rfl, ?_, ?_⟩
  · intro curated_nonempty gemini c e h
    unfold create_briefings
    by_cases hcn : curated_nonempty c = true
    · rw [if_pos hcn, h]
      rfl
    · rw [if_neg hcn]
  · intro curated_nonempty gemini gemini' c h
    unfold create_briefings
    rw [h]

/-- C5 witness: the scheduling that acquires tokens for the first two of
four sub-tasks reaches a state with exactly 2 holders; a concrete failing
call still has one release event, yields the empty briefing and does not
change another category's briefing. -/
theorem c5_witness :
    holdersCount
      (((List.replicate 4 TaskPhase.waiting).set 0 TaskPhase.holding).set 1
        TaskPhase.holding) ≤ 2 ∧
    (process_briefing_events (Except.error "boom")).countP isReleaseEv = 1 ∧
    generate_category_briefing (Except.error "quota") = "" ∧
    create_briefings (fun _ => true) (fun _ => Except.error "quota")
      Category.news = "" ∧
    create_briefings (fun _ => true) (fun _ => Except.error "quota")
      Category.company =
      create_briefings (fun _ => true)
        (fun c => if c = Category.news then Except.ok "x"
                  else Except.error "quota")
        Category.company := by
  refine ⟨?_, c5_limiter_and_degradation.2.1 (Except.error "boom"),
    c5_limiter_and_degradation.2.2.1 "quota",
    c5_limiter_and_degradation.2.2.2.1 (fun _ => true)
      (fun _ => Except.error "quota") Category.news "quota" rfl,
    c5_limiter_and_degradation.2.2.2.2 (fun _ => true)
      (fun _ => Except.error "quota")
      (fun c => if c = Category.news then Except.ok "x"
                else Except.error "quota")
      Category.company rfl⟩
  have step1 : BriefStep (briefInit 4)
      ⟨1, (List.replicate 4 TaskPhase.waiting).set 0 TaskPhase.holding⟩ :=
    BriefStep.acquire (briefInit 4) 0 rfl (by decide)
  have step2 : BriefStep
      ⟨1, (List.replicate 4 TaskPhase.waiting).set 0 TaskPhase.holding⟩
      ⟨0, ((List.replicate 4 TaskPhase.waiting).set 0 TaskPhase.holding).set 1
        TaskPhase.holding⟩ :=
    BriefStep.acquire
      ⟨1, (List.replicate 4 TaskPhase.waiting).set 0 TaskPhase.holding⟩ 1 rfl
      (by decide)
  exact c5_limiter_and_degradation.1 4 _
    (Relation.ReflTransGen.tail
      (Relation.ReflTransGen.tail Relation.ReflTransGen.refl step1) step2)

end TCR